import Mathlib

/-!
Verification of the natural-language specification of
`moad_tools/midoss/random_oil_spills.py` (UBC-MOAD/moad_tools) against a
shallow embedding of the module in Lean 4.

Modelling conventions:

* Python floats are modelled by `ℚ` (the module only compares, adds,
  multiplies and divides; tolerance checks such as `> 1e-4` become exact
  rational comparisons against `1/10000`).
* The NumPy PCG-64 generator (`numpy.random.default_rng`) is a deterministic
  function of its seed.  It is modelled by `Rng`: an abstract deterministic
  stream of naturals together with a position.  Each call of
  `Generator.choice` consumes one element of the stream and advances the
  position.  Only determinism, state threading and support membership of the
  draws are relevant to the claims; the exact distribution of PCG-64 is not
  modelled.
* Fallible Python code (exceptions: `ValueError`, `KeyError`, `IndexError`,
  `UnboundLocalError`) is modelled in `Except String`.
* External library calls whose values are data for this module (rasterio
  grids, shapely intersection lengths, the affine transform, `numpy.exp`,
  the `datetime` calendar) are modelled as explicit inputs: grids and tables
  as lists, `numpy.exp` and the calendar month function as function-valued
  parameters.
-/

/-- Deterministic model of a `numpy.random.Generator` (PCG-64): an abstract
stream of draw outcomes and the current position in the stream. -/
structure Rng where
  stream : Nat → Nat
  pos : Nat

/-- Advance the generator state by one draw. -/
def Rng.advance (g : Rng) : Rng :=
  { stream := g.stream, pos := g.pos + 1 }

/-- Tolerance used by `numpy.random.Generator.choice` when checking that the
probabilities sum to 1 (`sqrt(eps)`, modelled as `1e-8`). -/
def npAtol : ℚ := 1 / 100000000

/-- Model of `Generator.choice(a)` (uniform, no probability vector): raises
`ValueError` on an empty sequence, otherwise consumes one draw from the
stream and returns an element of the sequence. -/
def npChoice {α : Type} (xs : List α) (g : Rng) : Except String (α × Rng) :=
  match xs with
  | [] => Except.error "ValueError: a must be non-empty"
  | x :: rest =>
    Except.ok ((x :: rest).get
      ⟨g.stream g.pos % (rest.length + 1), Nat.mod_lt _ (Nat.succ_pos _)⟩,
      g.advance)

/-- Model of `Generator.choice(a, p=probabilities)`: raises `ValueError` when
the sequence is empty, when the probability vector has the wrong length,
contains a negative entry, or does not sum to 1 within `npAtol`; otherwise
consumes one draw and returns an element of the sequence. -/
def npChoiceWeighted {α : Type} (xs : List α) (p : List ℚ) (g : Rng) :
    Except String (α × Rng) :=
  match xs with
  | [] => Except.error "ValueError: a must be non-empty"
  | x :: rest =>
    if p.length = rest.length + 1 ∧ (∀ q ∈ p, 0 ≤ q) ∧ |p.sum - 1| ≤ npAtol then
      Except.ok ((x :: rest).get
        ⟨g.stream g.pos % (rest.length + 1), Nat.mod_lt _ (Nat.succ_pos _)⟩,
        g.advance)
    else
      Except.error "ValueError: invalid probabilities"

/-- A successful weighted draw returns an element of the sequence. -/
theorem npChoiceWeighted_mem {α : Type} {xs : List α} {p : List ℚ} {g : Rng}
    {a : α} {g2 : Rng} (h : npChoiceWeighted xs p g = Except.ok (a, g2)) :
    a ∈ xs := by
  match xs with
  | [] => simp [npChoiceWeighted] at h
  | x :: rest =>
    rw [npChoiceWeighted] at h
    split at h
    · cases h
      exact List.get_mem _ _ _
    · cases h

/-- A weighted draw over a non-empty sequence with a valid probability vector
succeeds, with a result in the sequence. -/
theorem npChoiceWeighted_ok {α : Type} (x : α) (rest : List α) (p : List ℚ)
    (g : Rng) (hlen : p.length = rest.length + 1) (hnn : ∀ q ∈ p, 0 ≤ q)
    (hsum : |p.sum - 1| ≤ npAtol) :
    ∃ a g2, npChoiceWeighted (x :: rest) p g = Except.ok (a, g2) ∧ a ∈ x :: rest := by
  rw [npChoiceWeighted]
  rw [if_pos ⟨hlen, hnn, hsum⟩]
  exact ⟨_, _, rfl, List.get_mem _ _ _⟩

/-- Model of flat NumPy / pandas positional indexing by a natural index
(`arr.flat[i]`, `series[i]`): `IndexError` when out of range. -/
def npFlatGet {α : Type} (xs : List α) (i : Nat) : Except String α :=
  match xs.get? i with
  | some v => Except.ok v
  | none => Except.error "IndexError: index out of range"

/-- Model of Python list indexing `xs[i]` with an `int` index: negative
indices address from the end; out of range raises `IndexError`. -/
def pyIndex {α : Type} (xs : List α) (i : Int) : Except String α :=
  let j : Int := if i < 0 then i + xs.length else i
  match xs.get? j.toNat with
  | some v => if 0 ≤ j then Except.ok v else Except.error "IndexError: list index out of range"
  | none => Except.error "IndexError: list index out of range"

/-- `random_oil_spills.py`, `_clamp(n, minn, maxn)`: fix `n` to the `minn` /
`maxn` thresholds. -/
def _clamp (n minn maxn : ℚ) : ℚ :=
  if n < minn then minn
  else if n > maxn then maxn
  else n

/-- `random_oil_spills.py`, `adjust_tug_tank_barge_length(vessel_type,
vessel_len, random_generator)`: standardize ATB and barge lengths under 100 m
by a uniform draw from the canonical tug-and-tank-barge lengths. -/
def adjust_tug_tank_barge_length (vessel_type : String) (vessel_len : ℚ)
    (g : Rng) : Except String (ℚ × Rng) :=
  if vessel_type ∉ (["atb", "barge"] : List String) then
    -- Adjustment only applies to ATB and barge vessel types
    Except.ok (vessel_len, g)
  else if vessel_len ≥ 100 then
    -- Adjustment only applies to ATBs and barges <100m in length
    Except.ok (vessel_len, g)
  else
    npChoice ([147, 172, 178, 206, 207] : List ℚ) g

/-- A fixed sample generator state used to instantiate theorems with
hypotheses at concrete inputs. -/
def sampleRng : Rng := { stream := fun _ => 0, pos := 0 }

/-- C5 counterexample: the claim quantifies over all `lo`, `hi`, but for
`lo > hi` (here `n = 2`, `lo = 3`, `hi = 1`) the result `3` is not `≤ hi`,
so `lo ≤ _clamp n lo hi ≤ hi` fails. -/
theorem _clamp_claim_counterexample :
    ¬ ((3 : ℚ) ≤ _clamp 2 3 1 ∧ _clamp 2 3 1 ≤ 1) := by
  intro h
  have h2 : _clamp 2 3 1 = 3 := by norm_num [_clamp]
  rw [h2] at h
  exact absurd h.2 (by norm_num)

/-- C5 (amended): whenever `minn ≤ maxn`, `_clamp n minn maxn` lies in
`[minn, maxn]`, and it is the identity on `n` whenever `minn ≤ n ≤ maxn`. -/
theorem _clamp_spec (n minn maxn : ℚ) (h : minn ≤ maxn) :
    minn ≤ _clamp n minn maxn ∧ _clamp n minn maxn ≤ maxn ∧
      (minn ≤ n → n ≤ maxn → _clamp n minn maxn = n) := by
  unfold _clamp
  split_ifs with h1 h2
  · exact ⟨le_refl _, h, fun ha _ => absurd h1 (not_lt.mpr ha)⟩
  · exact ⟨h, le_refl _, fun _ hb => absurd h2 (not_lt.mpr hb)⟩
  · exact ⟨not_lt.mp h1, not_lt.mp h2, fun _ _ => rfl⟩

/-- C5 witness: the amended clamp property evaluated at `n = 5`, `lo = 3`,
`hi = 7`. -/
theorem _clamp_spec_witness :
    (3 : ℚ) ≤ _clamp 5 3 7 ∧ _clamp 5 3 7 ≤ 7 ∧
      ((3 : ℚ) ≤ 5 → (5 : ℚ) ≤ 7 → _clamp 5 3 7 = 5) :=
  _clamp_spec 5 3 7 (by norm_num)

/-- C3: `adjust_tug_tank_barge_length` is the identity (same length, same
generator state, no error) for vessel types other than `atb` / `barge` and
for lengths `≥ 100`; for `atb` / `barge` under 100 it discards the length and
returns a draw from the catalog `{147, 172, 178, 206, 207}`. -/
theorem adjust_tug_tank_barge_length_spec (vessel_type : String)
    (vessel_len : ℚ) (g : Rng) :
    ((vessel_type ∉ (["atb", "barge"] : List String) ∨ 100 ≤ vessel_len) →
      adjust_tug_tank_barge_length vessel_type vessel_len g =
        Except.ok (vessel_len, g)) ∧
    (vessel_type ∈ (["atb", "barge"] : List String) → vessel_len < 100 →
      ∃ l g2, adjust_tug_tank_barge_length vessel_type vessel_len g =
        Except.ok (l, g2) ∧ l ∈ ([147, 172, 178, 206, 207] : List ℚ)) := by
  constructor
  · intro h
    unfold adjust_tug_tank_barge_length
    rcases h with h | h
    · rw [if_pos h]
    · by_cases h1 : vessel_type ∉ (["atb", "barge"] : List String)
      · rw [if_pos h1]
      · rw [if_neg h1, if_pos h]
  · intro hmem hlt
    unfold adjust_tug_tank_barge_length
    rw [if_neg (by simp [hmem]), if_neg (not_le.mpr hlt)]
    rw [npChoice]
    exact ⟨_, _, rfl, List.get_mem _ _ _⟩

/-- C3 witness: identity at `("ferry", 42)` and a catalog draw at
`("atb", 50)`. -/
theorem adjust_tug_tank_barge_length_witness :
    adjust_tug_tank_barge_length "ferry" 42 sampleRng =
      Except.ok (42, sampleRng) ∧
    ∃ l g2, adjust_tug_tank_barge_length "atb" 50 sampleRng =
      Except.ok (l, g2) ∧ l ∈ ([147, 172, 178, 206, 207] : List ℚ) :=
  ⟨(adjust_tug_tank_barge_length_spec "ferry" 42 sampleRng).1
      (Or.inl (by decide)),
    (adjust_tug_tank_barge_length_spec "atb" 50 sampleRng).2
      (by decide) (by norm_num)⟩

/-- Oil-type fraction rows of a cargo attribution yaml file: each oil type
maps to its `fraction_of_total` value. -/
abbrev OilFracs := List (String × ℚ)

/-- Per-vessel-type oil fraction tables (`cargo_info[vessel_type]`). -/
abbrev VesselOilTable := List (String × OilFracs)

/-- Facility-keyed attribution tables
(`cargo_info[facility][vessel_type]`). -/
abbrev FacilityTable := List (String × VesselOilTable)

/-- Model of a Python `dict` lookup: `KeyError` when the key is absent. -/
def lookupStr {α : Type} (tbl : List (String × α)) (key : String) :
    Except String α :=
  match tbl.lookup key with
  | some v => Except.ok v
  | none => Except.error ("KeyError: " ++ key)

/-- `random_oil_spills.py`, `get_oil_type_cargo(cargo_info, facility,
vessel_type, random_generator)`: validate that the declared
`fraction_of_total` values sum to 1 within `1e-4`, then draw one oil type
from the table keys with the normalized fractions as probabilities. -/
def get_oil_type_cargo (cargo_info : FacilityTable) (facility : String)
    (vessel_type : String) (g : Rng) : Except String (String × Rng) :=
  match lookupStr cargo_info facility with
  | Except.error e => Except.error e
  | Except.ok fac =>
    match lookupStr fac vessel_type with
    | Except.error e => Except.error e
    | Except.ok ship =>
      let raw_probs := ship.map (fun kv => kv.2)
      if |raw_probs.sum - 1| > 1 / 10000 then
        Except.error
          ("ValueError: Probable data entry error - sum of raw probabilities is not close to 1: "
            ++ toString raw_probs.sum ++ " for facility=" ++ facility
            ++ ", vessel_type=" ++ vessel_type)
      else
        npChoiceWeighted (ship.map (fun kv => kv.1))
          (raw_probs.map (fun q => q / raw_probs.sum)) g

/-- `random_oil_spills.py`, `get_oil_type_cargo_generic_US(cargo_info,
vessel_type, random_generator)`: as `get_oil_type_cargo` but for yaml files
that lack facility names. -/
def get_oil_type_cargo_generic_US (cargo_info : VesselOilTable)
    (vessel_type : String) (g : Rng) : Except String (String × Rng) :=
  match lookupStr cargo_info vessel_type with
  | Except.error e => Except.error e
  | Except.ok ship =>
    let raw_probs := ship.map (fun kv => kv.2)
    if |raw_probs.sum - 1| > 1 / 10000 then
      Except.error
        ("ValueError: Probably data entry error - sum of raw probabilities is not close to 1: "
          ++ toString raw_probs.sum ++ " for vessel_type=" ++ vessel_type)
    else
      npChoiceWeighted (ship.map (fun kv => kv.1))
        (raw_probs.map (fun q => q / raw_probs.sum)) g

/-- Dividing every element of a list by a constant divides the sum. -/
theorem list_sum_map_div (l : List ℚ) (c : ℚ) :
    (l.map (fun q => q / c)).sum = l.sum / c := by
  simp only [div_eq_mul_inv]
  rw [show (fun q : ℚ => q * c⁻¹) = (fun q : ℚ => id q * c⁻¹) from rfl]
  rw [List.sum_map_mul_right, List.map_id]

/-- C2: `get_oil_type_cargo` raises when the declared fractions of the
facility-and-vessel-type table sum to `s` with `|s - 1| > 1e-4` (which covers
every `s ∈ [0, 1 - 1e-3] ∪ [1 + 1e-3, ∞)`), and otherwise normalizes the
fractions and draws one oil type from the table keys. -/
theorem get_oil_type_cargo_spec (cargo_info : FacilityTable)
    (facility vessel_type : String) (fac : VesselOilTable) (ship : OilFracs)
    (hfac : cargo_info.lookup facility = some fac)
    (hship : fac.lookup vessel_type = some ship)
    (hnn : ∀ kv ∈ ship, 0 ≤ kv.2) (g : Rng) :
    (|(ship.map (fun kv => kv.2)).sum - 1| > 1 / 10000 →
      ∃ e, get_oil_type_cargo cargo_info facility vessel_type g =
        Except.error e) ∧
    (|(ship.map (fun kv => kv.2)).sum - 1| ≤ 1 / 10000 →
      ∃ t g2, get_oil_type_cargo cargo_info facility vessel_type g =
        Except.ok (t, g2) ∧ t ∈ ship.map (fun kv => kv.1)) := by
  unfold get_oil_type_cargo
  simp only [lookupStr, hfac, hship]
  constructor
  · intro hgt
    rw [if_pos hgt]
    exact ⟨_, rfl⟩
  · intro hle
    rw [if_neg (not_lt.mpr hle)]
    have hpos : (0 : ℚ) < (ship.map (fun kv => kv.2)).sum := by
      have h1 := abs_le.mp hle
      linarith [h1.1]
    have hne : ship ≠ [] := by
      intro he
      rw [he] at hpos
      simp at hpos
    obtain ⟨kv0, rest, rfl⟩ : ∃ kv0 rest, ship = kv0 :: rest := by
      cases ship with
      | nil => exact absurd rfl hne
      | cons a l => exact ⟨a, l, rfl⟩
    have hlen : (((kv0 :: rest).map (fun kv => kv.2)).map
        (fun q => q / ((kv0 :: rest).map (fun kv => kv.2)).sum)).length =
          (rest.map (fun kv => kv.1)).length + 1 := by
      simp
    have hnn2 : ∀ q ∈ ((kv0 :: rest).map (fun kv => kv.2)).map
        (fun q => q / ((kv0 :: rest).map (fun kv => kv.2)).sum), 0 ≤ q := by
      intro q hq
      rw [List.mem_map] at hq
      obtain ⟨q0, hq0, rfl⟩ := hq
      rw [List.mem_map] at hq0
      obtain ⟨kv, hkv, rfl⟩ := hq0
      have := hnn kv hkv
      positivity
    have hsum : |((((kv0 :: rest).map (fun kv => kv.2)).map
        (fun q => q / ((kv0 :: rest).map (fun kv => kv.2)).sum)).sum - 1)|
          ≤ npAtol := by
      rw [list_sum_map_div]
      rw [div_self (ne_of_gt hpos)]
      simp [npAtol]
    obtain ⟨a, g2, hok, hmem⟩ :=
      npChoiceWeighted_ok (kv0.1) (rest.map (fun kv => kv.1)) _ g hlen hnn2 hsum
    refine ⟨a, g2, ?_, ?_⟩
    · rw [← hok]
      rfl
    · simpa using hmem

/-- C2 witness: a two-row table with fractions summing to `1` yields a
successful draw from its keys. -/
theorem get_oil_type_cargo_witness :
    ∃ t g2,
      get_oil_type_cargo
        [("Westridge Marine Terminal", [("atb", [("jet", 1/2), ("dilbit", 1/2)])])]
        "Westridge Marine Terminal" "atb" sampleRng = Except.ok (t, g2) ∧
      t ∈ ([("jet", (1 : ℚ)/2), ("dilbit", 1/2)].map (fun kv => kv.1)) :=
  (get_oil_type_cargo_spec
      [("Westridge Marine Terminal", [("atb", [("jet", 1/2), ("dilbit", 1/2)])])]
      "Westridge Marine Terminal" "atb"
      [("atb", [("jet", 1/2), ("dilbit", 1/2)])]
      [("jet", 1/2), ("dilbit", 1/2)]
      (by rfl) (by rfl) (by norm_num) sampleRng).2 (by norm_num)

/-- Per-vessel-type entries of `oil_attrs["vessel_attributes"]` (the oil
attribution yaml document).  Keys that the yaml file only provides for some
vessel types and whose absence the code observes (`probability_cargo`,
`probability_fuel`, via `KeyError`) are `Option`-valued; the remaining keys
are modelled as total fields. -/
structure VesselAttrs where
  min_length : ℚ
  max_length : ℚ
  min_fuel : ℚ
  max_fuel : ℚ
  min_cargo : ℚ
  max_cargo : ℚ
  length_bins : List (ℚ × ℚ)
  cargo_capacity : List ℚ
  fuel_capacity : List ℚ
  cargo_fit_coefs : List ℚ
  fuel_fit_coefs : List ℚ
  cargo_capacity_probability : List ℚ
  cargo_capacity_bin_centers : List ℚ
  fuel_capacity_probability : List ℚ
  fuel_capacity_bin_centers : List ℚ
  probability_cargo : Option ℚ
  probability_fuel : Option ℚ
  probability_oilcargo : ℚ

/-- `oil_attrs["categories"]`. -/
structure Categories where
  all_vessels : List String
  tank_vessels : List String
  CAD_origin_destination : List String
  US_origin_destination : List String

/-- The oil attribution document (`oil_attrs`), with the per-vessel-type
attribute dictionary modelled as a total function. -/
structure OilAttrs where
  categories : Categories
  vessel_attributes : String → VesselAttrs

/-- `random_oil_spills.py`, `fuel_or_cargo_spill(oil_attrs, vessel_type,
random_generator)`: weighted boolean draw from the declared
`probability_cargo` / `probability_fuel` pair; a missing key (`KeyError`,
caught) means the vessel type carries only fuel, and the result is `True`
with no draw taken. -/
def fuel_or_cargo_spill (oil_attrs : OilAttrs) (vessel_type : String)
    (g : Rng) : Except String (Bool × Rng) :=
  match (oil_attrs.vessel_attributes vessel_type).probability_cargo,
      (oil_attrs.vessel_attributes vessel_type).probability_fuel with
  | some pc, some pf => npChoiceWeighted [false, true] [pc, pf] g
  | _, _ => Except.ok (true, g)

/-- C6: when the attribution entry of the vessel type lacks a cargo/fuel
probability key, `fuel_or_cargo_spill` returns `True` with the generator
state untouched (no draw); when both keys are present it is exactly the
weighted boolean draw over `[False, True]` with probabilities
`[probability_cargo, probability_fuel]`, and for a valid probability pair it
returns a drawn boolean. -/
theorem fuel_or_cargo_spill_spec (oil_attrs : OilAttrs)
    (vessel_type : String) (g : Rng) :
    (((oil_attrs.vessel_attributes vessel_type).probability_cargo = none ∨
      (oil_attrs.vessel_attributes vessel_type).probability_fuel = none) →
      fuel_or_cargo_spill oil_attrs vessel_type g = Except.ok (true, g)) ∧
    (∀ pc pf,
      (oil_attrs.vessel_attributes vessel_type).probability_cargo = some pc →
      (oil_attrs.vessel_attributes vessel_type).probability_fuel = some pf →
      fuel_or_cargo_spill oil_attrs vessel_type g =
        npChoiceWeighted [false, true] [pc, pf] g ∧
      (0 ≤ pc → 0 ≤ pf → pc + pf = 1 →
        ∃ b g2, fuel_or_cargo_spill oil_attrs vessel_type g =
          Except.ok (b, g2))) := by
  constructor
  · intro h
    unfold fuel_or_cargo_spill
    rcases h with h | h
    · rw [h]
    · rw [h]
      cases (oil_attrs.vessel_attributes vessel_type).probability_cargo <;> rfl
  · intro pc pf hpc hpf
    unfold fuel_or_cargo_spill
    rw [hpc, hpf]
    refine ⟨rfl, fun h1 h2 h3 => ?_⟩
    obtain ⟨b, g2, hok, _⟩ := npChoiceWeighted_ok false [true] [pc, pf] g
      (by simp)
      (by
        intro q hq
        rcases List.mem_pair.mp hq with rfl | rfl
        · exact h1
        · exact h2)
      (by simp [h3, npAtol])
    exact ⟨b, g2, hok⟩

/-- C6 witness: a fuel-only entry (no probability keys) and an entry with
`probability_cargo = 0.8`, `probability_fuel = 0.2`. -/
theorem fuel_or_cargo_spill_witness :
    fuel_or_cargo_spill
      { categories := ⟨[], [], [], []⟩,
        vessel_attributes := fun _ =>
          { min_length := 0, max_length := 0, min_fuel := 0, max_fuel := 0,
            min_cargo := 0, max_cargo := 0, length_bins := [],
            cargo_capacity := [], fuel_capacity := [], cargo_fit_coefs := [],
            fuel_fit_coefs := [], cargo_capacity_probability := [],
            cargo_capacity_bin_centers := [], fuel_capacity_probability := [],
            fuel_capacity_bin_centers := [], probability_cargo := none,
            probability_fuel := none, probability_oilcargo := 1 } }
      "ferry" sampleRng = Except.ok (true, sampleRng) ∧
    ∃ b g2, fuel_or_cargo_spill
      { categories := ⟨[], [], [], []⟩,
        vessel_attributes := fun _ =>
          { min_length := 0, max_length := 0, min_fuel := 0, max_fuel := 0,
            min_cargo := 0, max_cargo := 0, length_bins := [],
            cargo_capacity := [], fuel_capacity := [], cargo_fit_coefs := [],
            fuel_fit_coefs := [], cargo_capacity_probability := [],
            cargo_capacity_bin_centers := [], fuel_capacity_probability := [],
            fuel_capacity_bin_centers := [],
            probability_cargo := some (8/10),
            probability_fuel := some (2/10), probability_oilcargo := 1 } }
      "barge" sampleRng = Except.ok (b, g2) :=
  ⟨(fuel_or_cargo_spill_spec _ "ferry" sampleRng).1 (Or.inl rfl),
    ((fuel_or_cargo_spill_spec _ "barge" sampleRng).2 (8/10) (2/10) rfl rfl).2
      (by norm_num) (by norm_num) (by norm_num)⟩

/-- A uniform draw over a non-empty sequence succeeds with a result in the
sequence. -/
theorem npChoice_ok {α : Type} (x : α) (rest : List α) (g : Rng) :
    ∃ a g2, npChoice (x :: rest) g = Except.ok (a, g2) ∧ a ∈ x :: rest := by
  rw [npChoice]
  exact ⟨_, _, rfl, List.get_mem _ _ _⟩

/-- GeoTIFF cell bounding box corners, as built by `get_lat_lon_indices` from
the rasterio affine transform (`shapely.geometry.Polygon` of the four
corners). -/
structure BBox where
  llx : ℚ
  lly : ℚ
  urx : ℚ
  ury : ℚ

/-- One AIS track record as read by geopandas from the vessel-type/month
shapefile.  `geometry_length` models `ais_track.geometry.length`;
`intersection_length` models
`ais_track.geometry.intersection(geotiff_bbox).length` (shapely geometry is
external, so the intersection length is data indexed by the bounding box);
`ST_DATE` / `EN_DATE` are timestamps in seconds; `FROM_` / `TO` are `None`
when the shapefile lacks the attribute (the `AttributeError` catch);
`MMSI_NUM` is stored as a float in the shapefile. -/
structure AISTrack where
  geometry_length : ℚ
  intersection_length : BBox → ℚ
  ST_DATE : ℚ
  EN_DATE : ℚ
  LENGTH : ℚ
  FROM_ : Option String
  TO : Option String
  MMSI_NUM : ℚ

/-- Model of the Python no-decimals float format used to cast the MMSI
float to a string of digits. -/
def pyFormatNoDecimals (q : ℚ) : String :=
  toString (round q)

/-- The message of the `ValueError` re-raised by
`get_length_origin_destination` when the weighted track draw fails. -/
def noAISTracksMsg (shapefiles_dir vessel_type : String) (spill_month : Nat)
    (geotiff_bbox : BBox) : String :=
  "No AIS tracks in GeoTIFF box: shapefiles_dir=" ++ shapefiles_dir ++
    ", vessel_type=" ++ vessel_type ++
    ", spill_month=" ++ toString spill_month ++
    ", geotiff_bbox.exterior.coords.xy=" ++ toString geotiff_bbox.llx ++
    " " ++ toString geotiff_bbox.lly ++ " " ++ toString geotiff_bbox.urx ++
    " " ++ toString geotiff_bbox.ury

/-- `random_oil_spills.py`, `get_length_origin_destination(shapefiles_dir,
vessel_type, spill_month, geotiff_bbox, random_generator)`: weight each AIS
track intersecting the GeoTIFF cell by (fraction of its length inside the
cell) x (track duration), draw one track, and return its length, origin,
destination and MMSI.  The `ais_tracks` argument models the track records
returned by `geopandas.read_file(shapefile, bbox=geotiff_bbox)`.  A
`ValueError` from the draw (in particular, when there are no tracks) is
re-raised with a message naming the query parameters. -/
def get_length_origin_destination (shapefiles_dir vessel_type : String)
    (spill_month : Nat) (geotiff_bbox : BBox) (ais_tracks : List AISTrack)
    (g : Rng) :
    Except String ((ℚ × Option String × Option String × String) × Rng) :=
  let vte := ais_tracks.map (fun t =>
    (t.intersection_length geotiff_bbox / t.geometry_length) *
      (t.EN_DATE - t.ST_DATE))
  match npChoiceWeighted (List.range ais_tracks.length)
      (vte.map (fun v => v / vte.sum)) g with
  | Except.error _ =>
    Except.error
      (noAISTracksMsg shapefiles_dir vessel_type spill_month geotiff_bbox)
  | Except.ok (chosen_track_index, g1) =>
    match npFlatGet ais_tracks chosen_track_index with
    | Except.error e => Except.error e
    | Except.ok track =>
      Except.ok ((track.LENGTH, track.FROM_, track.TO,
        pyFormatNoDecimals track.MMSI_NUM), g1)

/-- C7: with no AIS tracks intersecting the query bounding box,
`get_length_origin_destination` raises an explicit error whose message names
the shapefiles directory, the vessel type, the month and the bounding box
coordinates. -/
theorem get_length_origin_destination_empty (shapefiles_dir vessel_type :
    String) (spill_month : Nat) (geotiff_bbox : BBox) (g : Rng) :
    get_length_origin_destination shapefiles_dir vessel_type spill_month
        geotiff_bbox [] g =
      Except.error
        (noAISTracksMsg shapefiles_dir vessel_type spill_month geotiff_bbox) ∧
    (∃ s1 s2, noAISTracksMsg shapefiles_dir vessel_type spill_month
        geotiff_bbox = s1 ++ (shapefiles_dir ++ s2)) ∧
    (∃ s1 s2, noAISTracksMsg shapefiles_dir vessel_type spill_month
        geotiff_bbox = s1 ++ (vessel_type ++ s2)) ∧
    (∃ s1 s2, noAISTracksMsg shapefiles_dir vessel_type spill_month
        geotiff_bbox = s1 ++ (toString spill_month ++ s2)) ∧
    (∃ s1 s2, noAISTracksMsg shapefiles_dir vessel_type spill_month
        geotiff_bbox = s1 ++ (toString geotiff_bbox.llx ++ s2)) := by
  refine ⟨rfl,
    ⟨"No AIS tracks in GeoTIFF box: shapefiles_dir=",
      ", vessel_type=" ++ vessel_type ++ ", spill_month=" ++
        toString spill_month ++ ", geotiff_bbox.exterior.coords.xy=" ++
        toString geotiff_bbox.llx ++ " " ++ toString geotiff_bbox.lly ++
        " " ++ toString geotiff_bbox.urx ++ " " ++ toString geotiff_bbox.ury,
      ?_⟩,
    ⟨"No AIS tracks in GeoTIFF box: shapefiles_dir=" ++ shapefiles_dir ++
      ", vessel_type=",
      ", spill_month=" ++ toString spill_month ++
        ", geotiff_bbox.exterior.coords.xy=" ++ toString geotiff_bbox.llx ++
        " " ++ toString geotiff_bbox.lly ++ " " ++ toString geotiff_bbox.urx ++
        " " ++ toString geotiff_bbox.ury,
      ?_⟩,
    ⟨"No AIS tracks in GeoTIFF box: shapefiles_dir=" ++ shapefiles_dir ++
      ", vessel_type=" ++ vessel_type ++ ", spill_month=",
      ", geotiff_bbox.exterior.coords.xy=" ++ toString geotiff_bbox.llx ++
        " " ++ toString geotiff_bbox.lly ++ " " ++ toString geotiff_bbox.urx ++
        " " ++ toString geotiff_bbox.ury,
      ?_⟩,
    ⟨"No AIS tracks in GeoTIFF box: shapefiles_dir=" ++ shapefiles_dir ++
      ", vessel_type=" ++ vessel_type ++ ", spill_month=" ++
      toString spill_month ++ ", geotiff_bbox.exterior.coords.xy=",
      " " ++ toString geotiff_bbox.lly ++ " " ++ toString geotiff_bbox.urx ++
        " " ++ toString geotiff_bbox.ury,
      ?_⟩⟩ <;>
    simp only [noAISTracksMsg, String.append_assoc]

/-- `random_oil_spills.py`, `get_date(start_date, end_date, vte_probability,
random_generator)`: draw a month weighted by VTE probability, enumerate the
hourly timestamps of `[start_date, end_date]` (timestamps are modelled as
whole hours, as `Int`; the calendar month function of the `datetime` library
is the `month_of` parameter), keep those in the drawn month, and draw one
uniformly.  `(end_date - start_date + 1).toNat` renders Python
`range(0, time_period_inhours + 1)`, which is empty when the range is
negative. -/
def get_date (month_of : Int → Nat) (start_date end_date : Int)
    (vte_probability : List ℚ) (g : Rng) : Except String (Int × Rng) :=
  match npChoiceWeighted (List.range' 1 12) vte_probability g with
  | Except.error e => Except.error e
  | Except.ok (month_random, g1) =>
    let date_arr := (List.range (end_date - start_date + 1).toNat).map
      (fun i => start_date + Int.ofNat i)
    let date_arr_select :=
      date_arr.filter (fun days => month_of days == month_random)
    npChoice date_arr_select g1

/-- C8: once a month has been drawn, `get_date` fails with an error when the
date range contains no hourly timestamp of that month, and otherwise returns
a timestamp in `[start_date, end_date]` whose month is the drawn month. -/
theorem get_date_spec (month_of : Int → Nat) (start_date end_date : Int)
    (vte_probability : List ℚ) (g g1 : Rng) (m : Nat)
    (hdraw : npChoiceWeighted (List.range' 1 12) vte_probability g =
      Except.ok (m, g1)) :
    ((((List.range (end_date - start_date + 1).toNat).map
        (fun i => start_date + Int.ofNat i)).filter
        (fun days => month_of days == m) = []) →
      ∃ e, get_date month_of start_date end_date vte_probability g =
        Except.error e) ∧
    ((((List.range (end_date - start_date + 1).toNat).map
        (fun i => start_date + Int.ofNat i)).filter
        (fun days => month_of days == m) ≠ []) →
      ∃ d g2, get_date month_of start_date end_date vte_probability g =
        Except.ok (d, g2) ∧ start_date ≤ d ∧ d ≤ end_date ∧
        month_of d = m) := by
  simp only [get_date, hdraw]
  constructor
  · intro hempty
    rw [hempty]
    exact ⟨_, rfl⟩
  · intro hne
    obtain ⟨d0, rest, hsel⟩ : ∃ d0 rest,
        ((List.range (end_date - start_date + 1).toNat).map
          (fun i => start_date + Int.ofNat i)).filter
          (fun days => month_of days == m) = d0 :: rest := by
      cases hsel : ((List.range (end_date - start_date + 1).toNat).map
          (fun i => start_date + Int.ofNat i)).filter
          (fun days => month_of days == m) with
      | nil => exact absurd hsel hne
      | cons a l => exact ⟨a, l, rfl⟩
    rw [hsel]
    obtain ⟨d, g2, hok, hmem⟩ := npChoice_ok d0 rest g1
    refine ⟨d, g2, hok, ?_⟩
    rw [← hsel] at hmem
    rw [List.mem_filter] at hmem
    obtain ⟨hmem1, hmonth⟩ := hmem
    rw [List.mem_map] at hmem1
    obtain ⟨i, hi, rfl⟩ := hmem1
    rw [List.mem_range] at hi
    have hcast : Int.ofNat i = (i : Int) := rfl
    rw [hcast]
    refine ⟨by omega, by omega, ?_⟩
    rw [← hcast]
    exact eq_of_beq hmonth

/-- A sample calendar for witnesses: hours up to 1 are in month 1, later
hours in month 2. -/
def sampleMonthOf : Int → Nat := fun d => if d ≤ 1 then 1 else 2

/-- A sample VTE probability vector concentrated on month 1. -/
def sampleVte : List ℚ := [1, 0, 0, 0, 0, 0, 0, 0, 0, 0, 0, 0]

/-- C8 witness: with all VTE weight on month 1 and the hourly range
`[0, 3]`, `get_date` returns an hour of month 1 inside the range. -/
theorem get_date_spec_witness :
    ∃ d g2, get_date sampleMonthOf 0 3 sampleVte sampleRng =
      Except.ok (d, g2) ∧ (0 : Int) ≤ d ∧ d ≤ 3 ∧ sampleMonthOf d = 1 :=
  (get_date_spec sampleMonthOf 0 3 sampleVte sampleRng sampleRng.advance 1
    (by
      rw [show List.range' 1 12 = [1, 2, 3, 4, 5, 6, 7, 8, 9, 10, 11, 12]
        from rfl]
      rw [npChoiceWeighted]
      rw [if_pos (by refine ⟨by decide, ?_, ?_⟩ <;>
        norm_num [sampleVte, npAtol])]
      rfl)).2 (by decide)

/-- `random_oil_spills.py`, `_get_bin(value, bins)`: smallest index `i` with
`bins[i][0] <= value < bins[i][1]`, else `-1`. -/
def _get_bin (value : ℚ) (bins : List (ℚ × ℚ)) : Int :=
  match bins.findIdx? (fun b => decide (b.1 ≤ value) && decide (value < b.2)) with
  | some i => (i : Int)
  | none => -1

/-- Python `max` of a 2-tuple. -/
def pyMaxPair (p : ℚ × ℚ) : ℚ := max p.1 p.2

/-- Python `>` on 2-tuples (lexicographic). -/
def pyTupleGt (x y : ℚ × ℚ) : Bool :=
  decide (y.1 < x.1) || (decide (x.1 = y.1) && decide (y.2 < x.2))

/-- Python `max` of a list of 2-tuples; `ValueError` on an empty list. -/
def pyMaxPairs (l : List (ℚ × ℚ)) : Except String (ℚ × ℚ) :=
  match l with
  | [] => Except.error "ValueError: max arg is an empty sequence"
  | b :: rest =>
    Except.ok (rest.foldl (fun acc x => if pyTupleGt x acc then x else acc) b)

/-- Fit form `numpy.exp(C[1]) * numpy.exp(C[0] * vessel_length)` used by the
cargo / ferry / smallpass / other branches of `get_oil_capacity`
(`numpy.exp` is the `npExp` parameter). -/
def expFitCapacity (npExp : ℚ → ℚ) (C : List ℚ) (vessel_length : ℚ) :
    Except String ℚ :=
  match pyIndex C 1 with
  | Except.error e => Except.error e
  | Except.ok c1 =>
    match pyIndex C 0 with
    | Except.error e => Except.error e
    | Except.ok c0 => Except.ok (npExp c1 * npExp (c0 * vessel_length))

/-- Fit form `C[1] + C[0] * vessel_length` (atb cargo fit, cruise fuel
fit). -/
def linearFitCapacity (C : List ℚ) (vessel_length : ℚ) : Except String ℚ :=
  match pyIndex C 1 with
  | Except.error e => Except.error e
  | Except.ok c1 =>
    match pyIndex C 0 with
    | Except.error e => Except.error e
    | Except.ok c0 => Except.ok (c1 + c0 * vessel_length)

/-- Fit form `C[2] + C[1] * vessel_length + C[0] * vessel_length ** 2`
(fishing fuel fit). -/
def quadraticFitCapacity (C : List ℚ) (vessel_length : ℚ) : Except String ℚ :=
  match pyIndex C 2 with
  | Except.error e => Except.error e
  | Except.ok c2 =>
    match pyIndex C 1 with
    | Except.error e => Except.error e
    | Except.ok c1 =>
      match pyIndex C 0 with
      | Except.error e => Except.error e
      | Except.ok c0 =>
        Except.ok (c2 + c1 * vessel_length + c0 * vessel_length ^ 2)

/-- `random_oil_spills.py`, `get_oil_capacity(oil_attrs, vessel_length,
vessel_type, random_generator)`: fuel and cargo capacities from vessel length
and type.  Unknown vessel types raise; lengths outside the declared
`[min_length, max_length]` band return the declared bound capacities (cargo
only for tank vessels); in-band lengths dispatch per type: binned lookup for
tankers, fit or empirical draws for ATBs and barges, clamped curve fits with
zero cargo for the remaining types; a vessel type in `all_vessels` but
handled by no branch leaves the local capacities unassigned
(`UnboundLocalError` at the `return`). -/
def get_oil_capacity (npExp : ℚ → ℚ) (oil_attrs : OilAttrs)
    (vessel_length : ℚ) (vessel_type : String) (g : Rng) :
    Except String ((ℚ × ℚ) × Rng) :=
  if vessel_type ∉ oil_attrs.categories.all_vessels then
    Except.error
      "ValueError: Oops! Vessel type is not valid. Go fish (or try fishing instead)"
  else if vessel_length < (oil_attrs.vessel_attributes vessel_type).min_length
      then
    -- set lower bound
    Except.ok (((oil_attrs.vessel_attributes vessel_type).min_fuel,
      if vessel_type ∈ oil_attrs.categories.tank_vessels then
        (oil_attrs.vessel_attributes vessel_type).min_cargo
      else 0), g)
  else if vessel_length > (oil_attrs.vessel_attributes vessel_type).max_length
      then
    -- set upper bound
    Except.ok (((oil_attrs.vessel_attributes vessel_type).max_fuel,
      if vessel_type ∈ oil_attrs.categories.tank_vessels then
        (oil_attrs.vessel_attributes vessel_type).max_cargo
      else 0), g)
  else if vessel_type = "tanker" then
    match pyMaxPairs (oil_attrs.vessel_attributes "tanker").length_bins with
    | Except.error e => Except.error e
    | Except.ok maxbin =>
      if vessel_length ≥ pyMaxPair maxbin then
        Except.ok (((oil_attrs.vessel_attributes "tanker").max_fuel,
          (oil_attrs.vessel_attributes "tanker").max_cargo), g)
      else if vessel_length < 0 then
        Except.ok (((oil_attrs.vessel_attributes "tanker").min_fuel,
          (oil_attrs.vessel_attributes "tanker").min_cargo), g)
      else
        match pyIndex (oil_attrs.vessel_attributes "tanker").cargo_capacity
            (_get_bin vessel_length
              (oil_attrs.vessel_attributes "tanker").length_bins) with
        | Except.error e => Except.error e
        | Except.ok cargo_capacity =>
          match pyIndex (oil_attrs.vessel_attributes "tanker").fuel_capacity
              (_get_bin vessel_length
                (oil_attrs.vessel_attributes "tanker").length_bins) with
          | Except.error e => Except.error e
          | Except.ok fuel_capacity =>
            Except.ok ((fuel_capacity, cargo_capacity), g)
  else if vessel_type = "atb" then
    if vessel_length > 50 then
      -- For ATB lengths > 50 m, calculate capacity from linear fit,
      -- then impose thresholds to yield output capacity
      match linearFitCapacity
          (oil_attrs.vessel_attributes "atb").cargo_fit_coefs vessel_length with
      | Except.error e => Except.error e
      | Except.ok fit_capacity =>
        match npChoiceWeighted
            (oil_attrs.vessel_attributes "atb").fuel_capacity_bin_centers
            (oil_attrs.vessel_attributes "atb").fuel_capacity_probability g with
        | Except.error e => Except.error e
        | Except.ok (fuel_capacity, g1) =>
          Except.ok ((fuel_capacity,
            _clamp fit_capacity (oil_attrs.vessel_attributes "atb").min_cargo
              (oil_attrs.vessel_attributes "atb").max_cargo), g1)
    else
      -- Use cargo capacity weights by AIS ship track data for lengths < 50 m
      match npChoiceWeighted
          (oil_attrs.vessel_attributes "atb").cargo_capacity_bin_centers
          (oil_attrs.vessel_attributes "atb").cargo_capacity_probability g with
      | Except.error e => Except.error e
      | Except.ok (cargo_capacity, g1) =>
        match npChoiceWeighted
            (oil_attrs.vessel_attributes "atb").fuel_capacity_bin_centers
            (oil_attrs.vessel_attributes "atb").fuel_capacity_probability g1 with
        | Except.error e => Except.error e
        | Except.ok (fuel_capacity, g2) =>
          Except.ok ((fuel_capacity, cargo_capacity), g2)
  else if vessel_type = "barge" then
    match npChoiceWeighted
        (oil_attrs.vessel_attributes "barge").cargo_capacity_bin_centers
        (oil_attrs.vessel_attributes "barge").cargo_capacity_probability g with
    | Except.error e => Except.error e
    | Except.ok (cargo_capacity, g1) =>
      match npChoiceWeighted
          (oil_attrs.vessel_attributes "barge").fuel_capacity_bin_centers
          (oil_attrs.vessel_attributes "barge").fuel_capacity_probability g1 with
      | Except.error e => Except.error e
      | Except.ok (fuel_capacity, g2) =>
        Except.ok ((fuel_capacity, cargo_capacity), g2)
  else if vessel_type = "cargo" then
    match expFitCapacity npExp
        (oil_attrs.vessel_attributes "cargo").fuel_fit_coefs vessel_length with
    | Except.error e => Except.error e
    | Except.ok fit_capacity =>
      Except.ok ((_clamp fit_capacity
        (oil_attrs.vessel_attributes "cargo").min_fuel
        (oil_attrs.vessel_attributes "cargo").max_fuel, 0), g)
  else if vessel_type = "cruise" then
    match linearFitCapacity
        (oil_attrs.vessel_attributes "cruise").fuel_fit_coefs vessel_length with
    | Except.error e => Except.error e
    | Except.ok fit_capacity =>
      Except.ok ((_clamp fit_capacity
        (oil_attrs.vessel_attributes "cruise").min_fuel
        (oil_attrs.vessel_attributes "cruise").max_fuel, 0), g)
  else if vessel_type = "ferry" then
    match expFitCapacity npExp
        (oil_attrs.vessel_attributes "ferry").fuel_fit_coefs vessel_length with
    | Except.error e => Except.error e
    | Except.ok fit_capacity =>
      Except.ok ((_clamp fit_capacity
        (oil_attrs.vessel_attributes "ferry").min_fuel
        (oil_attrs.vessel_attributes "ferry").max_fuel, 0), g)
  else if vessel_type = "fishing" then
    match quadraticFitCapacity
        (oil_attrs.vessel_attributes "fishing").fuel_fit_coefs vessel_length with
    | Except.error e => Except.error e
    | Except.ok fit_capacity =>
      Except.ok ((_clamp fit_capacity
        (oil_attrs.vessel_attributes "fishing").min_fuel
        (oil_attrs.vessel_attributes "fishing").max_fuel, 0), g)
  else if vessel_type = "smallpass" then
    match expFitCapacity npExp
        (oil_attrs.vessel_attributes "smallpass").fuel_fit_coefs vessel_length
        with
    | Except.error e => Except.error e
    | Except.ok fit_capacity =>
      Except.ok ((_clamp fit_capacity
        (oil_attrs.vessel_attributes "smallpass").min_fuel
        (oil_attrs.vessel_attributes "smallpass").max_fuel, 0), g)
  else if vessel_type = "other" then
    match expFitCapacity npExp
        (oil_attrs.vessel_attributes "other").fuel_fit_coefs vessel_length with
    | Except.error e => Except.error e
    | Except.ok fit_capacity =>
      Except.ok ((_clamp fit_capacity
        (oil_attrs.vessel_attributes "other").min_fuel
        (oil_attrs.vessel_attributes "other").max_fuel, 0), g)
  else
    Except.error
      "UnboundLocalError: local variable fuel_capacity referenced before assignment"

/-- C4: for recognized vessel types with a sane declared length band
(`min_length <= max_length`), a length strictly below the minimum returns the
declared minimum fuel capacity (with minimum cargo for tank vessels, else 0)
with no draw, and a length strictly above the maximum returns the declared
maximum capacities analogously. -/
theorem get_oil_capacity_bounds (npExp : ℚ → ℚ) (oil_attrs : OilAttrs)
    (vessel_length : ℚ) (vessel_type : String) (g : Rng)
    (hmem : vessel_type ∈ oil_attrs.categories.all_vessels)
    (hsane : (oil_attrs.vessel_attributes vessel_type).min_length ≤
      (oil_attrs.vessel_attributes vessel_type).max_length) :
    (vessel_length < (oil_attrs.vessel_attributes vessel_type).min_length →
      get_oil_capacity npExp oil_attrs vessel_length vessel_type g =
        Except.ok (((oil_attrs.vessel_attributes vessel_type).min_fuel,
          if vessel_type ∈ oil_attrs.categories.tank_vessels then
            (oil_attrs.vessel_attributes vessel_type).min_cargo
          else 0), g)) ∧
    (vessel_length > (oil_attrs.vessel_attributes vessel_type).max_length →
      get_oil_capacity npExp oil_attrs vessel_length vessel_type g =
        Except.ok (((oil_attrs.vessel_attributes vessel_type).max_fuel,
          if vessel_type ∈ oil_attrs.categories.tank_vessels then
            (oil_attrs.vessel_attributes vessel_type).max_cargo
          else 0), g)) := by
  unfold get_oil_capacity
  rw [if_neg (not_not_intro hmem)]
  constructor
  · intro hlt
    rw [if_pos hlt]
  · intro hgt
    rw [if_neg (not_lt.mpr (le_trans hsane (le_of_lt hgt))), if_pos hgt]

/-- Vessel attributes used for sample data: a ferry-like entry with fuel-only
probabilities absent. -/
def sampleFerryAttrs : VesselAttrs :=
  { min_length := 10, max_length := 120, min_fuel := 1000, max_fuel := 9000,
    min_cargo := 0, max_cargo := 0, length_bins := [], cargo_capacity := [],
    fuel_capacity := [], cargo_fit_coefs := [], fuel_fit_coefs := [0, 0],
    cargo_capacity_probability := [], cargo_capacity_bin_centers := [],
    fuel_capacity_probability := [], fuel_capacity_bin_centers := [],
    probability_cargo := none, probability_fuel := none,
    probability_oilcargo := 1 }

/-- Vessel attributes used for sample data: a barge-like tank-vessel entry. -/
def sampleBargeAttrs : VesselAttrs :=
  { min_length := 20, max_length := 150, min_fuel := 2000, max_fuel := 8000,
    min_cargo := 500, max_cargo := 4000, length_bins := [],
    cargo_capacity := [], fuel_capacity := [], cargo_fit_coefs := [],
    fuel_fit_coefs := [], cargo_capacity_probability := [1],
    cargo_capacity_bin_centers := [3000], fuel_capacity_probability := [1],
    fuel_capacity_bin_centers := [5000], probability_cargo := some (8/10),
    probability_fuel := some (2/10), probability_oilcargo := 1 }

/-- Sample oil attribution document for witnesses. -/
def sampleOilAttrs : OilAttrs :=
  { categories :=
      { all_vessels := ["tanker", "atb", "barge", "cargo", "cruise", "ferry",
          "fishing", "smallpass", "other"],
        tank_vessels := ["tanker", "atb", "barge"],
        CAD_origin_destination := ["Westridge Marine Terminal",
          "ESSO Nanaimo Departure Bay", "Suncor Nanaimo"],
        US_origin_destination := ["U.S. Oil & Refining"] },
    vessel_attributes := fun vt =>
      if vt = "barge" then sampleBargeAttrs else sampleFerryAttrs }

/-- C4 witness: a short ferry gets the declared minimum fuel and zero cargo;
a long barge gets the declared maximum fuel and maximum cargo. -/
theorem get_oil_capacity_bounds_witness :
    get_oil_capacity (fun q => q) sampleOilAttrs 5 "ferry" sampleRng =
      Except.ok ((1000, 0), sampleRng) ∧
    get_oil_capacity (fun q => q) sampleOilAttrs 200 "barge" sampleRng =
      Except.ok ((8000, 4000), sampleRng) := by
  constructor
  · have h := (get_oil_capacity_bounds (fun q => q) sampleOilAttrs 5 "ferry"
      sampleRng (by decide) (by decide)).1 (by decide)
    rw [h]
    rfl
  · have h := (get_oil_capacity_bounds (fun q => q) sampleOilAttrs 200 "barge"
      sampleRng (by decide) (by decide)).2 (by decide)
    rw [h]
    rfl

/-- Python membership test `x in lst` for the nullable origin / destination
strings (`None in lst` is `False` for a list of strings). -/
def memOpt (o : Option String) (lst : List String) : Bool :=
  match o with
  | some s => decide (s ∈ lst)
  | none => false

/-- Python `o.getD ""` extraction for origin / destination values that the
enclosing branch has already tested with `memOpt` (so `o = some s`). -/
def optStr (o : Option String) : String :=
  o.getD ""

/-- The oil-type attribution yaml files loaded from the marine transport data
directory (named by `oil_attrs["files"]`).  `US_origin` and `Pacific_origin`
are read under two access patterns in the source (facility-keyed in the ATB
tree, vessel-type-keyed in the barge and tanker trees); both views of those
files are fields here. -/
structure TransportDataDir where
  CAD_origin : FacilityTable
  WA_destination : FacilityTable
  WA_origin : FacilityTable
  US_origin : FacilityTable
  US_origin_vessels : VesselOilTable
  US_combined_vessels : VesselOilTable
  Pacific_origin : FacilityTable
  Pacific_origin_vessels : VesselOilTable

/-- `random_oil_spills.py`, `get_oil_type_atb(oil_attrs, origin, destination,
transport_data_dir, random_generator)`: the ATB cargo oil type decision tree
over origin / destination terminal membership. -/
def get_oil_type_atb (oil_attrs : OilAttrs) (origin destination : Option String)
    (tdd : TransportDataDir) (g : Rng) : Except String (String × Rng) :=
  if memOpt origin oil_attrs.categories.CAD_origin_destination then
    if origin = some "Westridge Marine Terminal" then
      if destination = some "U.S. Oil & Refining" then
        get_oil_type_cargo tdd.CAD_origin (optStr origin) "atb" g
      else if memOpt destination oil_attrs.categories.US_origin_destination then
        get_oil_type_cargo tdd.CAD_origin (optStr origin) "atb" g
      else if memOpt destination oil_attrs.categories.CAD_origin_destination
          then
        -- assume export within CAD is from Jet fuel storage tanks
        Except.ok ("jet", g)
      else
        get_oil_type_cargo tdd.CAD_origin (optStr origin) "atb" g
    else
      if memOpt destination oil_attrs.categories.US_origin_destination then
        -- we have better information on WA fuel transfers
        get_oil_type_cargo tdd.WA_destination (optStr destination) "atb" g
      else if destination = some "ESSO Nanaimo Departure Bay" then
        get_oil_type_cargo tdd.CAD_origin (optStr destination) "atb" g
      else if destination = some "Suncor Nanaimo" then
        get_oil_type_cargo tdd.CAD_origin (optStr destination) "atb" g
      else
        get_oil_type_cargo tdd.CAD_origin (optStr origin) "atb" g
  else if memOpt origin oil_attrs.categories.US_origin_destination then
    if destination = some "Westridge Marine Terminal" then
      -- Westridge stores jet fuel from US for re-distribution
      Except.ok ("jet", g)
    else
      get_oil_type_cargo tdd.WA_origin (optStr origin) "atb" g
  else if memOpt destination oil_attrs.categories.US_origin_destination then
    get_oil_type_cargo tdd.WA_destination (optStr destination) "atb" g
  else if memOpt destination oil_attrs.categories.CAD_origin_destination then
    if destination = some "Westridge Marine Terminal" then
      -- Westridge does not receive crude for storage
      Except.ok ("jet", g)
    else
      get_oil_type_cargo tdd.CAD_origin (optStr destination) "atb" g
  else if origin = some "Pacific" then
    get_oil_type_cargo tdd.Pacific_origin (optStr origin) "atb" g
  else if origin = some "US" then
    get_oil_type_cargo tdd.US_origin (optStr origin) "atb" g
  else
    -- generic fuel attribution from the combined US import and export
    get_oil_type_cargo_generic_US tdd.US_combined_vessels "atb" g

/-- A cargo attribution draw returned as an oil-cargo spill: renders the
`oil_type = get_oil_type_cargo(...)` branches of `get_oil_type_barge` that
have no error catch (`fuel_spill` stays `False`). -/
def bargeCargoDraw (r : Except String (String × Rng)) :
    Except String ((Option String × Bool) × Rng) :=
  match r with
  | Except.error e => Except.error e
  | Except.ok (t, g1) => Except.ok ((some t, false), g1)

/-- A cargo attribution draw followed by the `ERROR CATCH` block of
`get_oil_type_barge`: an empty drawn oil type (`if not oil_type`) flips the
track to fuel-spill-only (`fuel_spill = True`, `oil_type = None`). -/
def bargeCargoDrawCatch (r : Except String (String × Rng)) :
    Except String ((Option String × Bool) × Rng) :=
  match r with
  | Except.error e => Except.error e
  | Except.ok (t, g1) =>
    if t = "" then Except.ok ((none, true), g1)
    else Except.ok ((some t, false), g1)

/-- The probability gate of `get_oil_type_barge` for tracks not linked to an
oil terminal: draw oil-cargo vs fuel-spill-only status weighted by
`[probability_oilcargo, probability_fuelonly]`; fuel-only yields
`(None, True)`, otherwise the oil type is drawn from the given generic
attribution table with `fuel_spill = False`. -/
def bargeGate (probability_oilcargo probability_fuelonly : ℚ)
    (tbl : VesselOilTable) (g : Rng) :
    Except String ((Option String × Bool) × Rng) :=
  match npChoiceWeighted [false, true]
      [probability_oilcargo, probability_fuelonly] g with
  | Except.error e => Except.error e
  | Except.ok (fuel_spill, g1) =>
    if fuel_spill then Except.ok ((none, true), g1)
    else
      match get_oil_type_cargo_generic_US tbl "barge" g1 with
      | Except.error e => Except.error e
      | Except.ok (t, g2) => Except.ok ((some t, false), g2)

/-- `random_oil_spills.py`, `get_oil_type_barge(oil_attrs, origin,
destination, transport_data_dir, random_generator)`: the barge cargo oil
type decision tree.  Returns `(oil_type, fuel_spill)`: `fuel_spill` starts
`False` and becomes `True` either through an `ERROR CATCH` (no oil transfer
recorded for the matched terminal) or through the `probability_oilcargo`
gate for unlinked tracks. -/
def get_oil_type_barge (oil_attrs : OilAttrs)
    (origin destination : Option String) (tdd : TransportDataDir) (g : Rng) :
    Except String ((Option String × Bool) × Rng) :=
  if memOpt origin oil_attrs.categories.CAD_origin_destination then
    if origin = some "Westridge Marine Terminal" then
      if memOpt destination oil_attrs.categories.CAD_origin_destination then
        Except.ok ((some "jet", false), g)
      else
        -- allocate oil type based on a barge from Westridge
        bargeCargoDraw (get_oil_type_cargo tdd.CAD_origin (optStr origin)
          "barge" g)
    else
      if memOpt destination oil_attrs.categories.US_origin_destination then
        -- better information on WA fuel transfers, with ERROR CATCH
        bargeCargoDrawCatch (get_oil_type_cargo tdd.WA_destination
          (optStr destination) "barge" g)
      else if destination = some "ESSO Nanaimo Departure Bay" then
        -- fixed to have an oil type option for all vessel types
        bargeCargoDraw (get_oil_type_cargo tdd.CAD_origin
          (optStr destination) "barge" g)
      else if destination = some "Suncor Nanaimo" then
        bargeCargoDraw (get_oil_type_cargo tdd.CAD_origin
          (optStr destination) "barge" g)
      else
        -- CAD origin with no better-known destination
        bargeCargoDraw (get_oil_type_cargo tdd.CAD_origin (optStr origin)
          "barge" g)
  else if memOpt origin oil_attrs.categories.US_origin_destination then
    bargeCargoDrawCatch (get_oil_type_cargo tdd.WA_origin (optStr origin)
      "barge" g)
  else if memOpt destination oil_attrs.categories.US_origin_destination then
    bargeCargoDrawCatch (get_oil_type_cargo tdd.WA_destination
      (optStr destination) "barge" g)
  else if memOpt destination oil_attrs.categories.CAD_origin_destination then
    if destination = some "Westridge Marine Terminal" then
      -- Westridge does not receive crude for storage
      Except.ok ((some "jet", false), g)
    else
      bargeCargoDraw (get_oil_type_cargo tdd.CAD_origin (optStr destination)
        "barge" g)
  else if origin = some "Pacific" then
    bargeGate (oil_attrs.vessel_attributes "barge").probability_oilcargo
      (1 - (oil_attrs.vessel_attributes "barge").probability_oilcargo)
      tdd.Pacific_origin_vessels g
  else if origin = some "US" then
    bargeGate (oil_attrs.vessel_attributes "barge").probability_oilcargo
      (1 - (oil_attrs.vessel_attributes "barge").probability_oilcargo)
      tdd.US_origin_vessels g
  else if origin = some "Canada" then
    -- NOTE: Currently Canada == US
    bargeGate (oil_attrs.vessel_attributes "barge").probability_oilcargo
      (1 - (oil_attrs.vessel_attributes "barge").probability_oilcargo)
      tdd.US_origin_vessels g
  else
    -- null origin / destination
    bargeGate (oil_attrs.vessel_attributes "barge").probability_oilcargo
      (1 - (oil_attrs.vessel_attributes "barge").probability_oilcargo)
      tdd.US_origin_vessels g

/-- `random_oil_spills.py`, `get_oil_type_tanker(oil_attrs, origin,
destination, transport_data_dir, random_generator)`: the tanker cargo oil
type decision tree. -/
def get_oil_type_tanker (oil_attrs : OilAttrs)
    (origin destination : Option String) (tdd : TransportDataDir) (g : Rng) :
    Except String (String × Rng) :=
  if memOpt origin oil_attrs.categories.CAD_origin_destination then
    if origin = some "Westridge Marine Terminal" then
      get_oil_type_cargo tdd.CAD_origin (optStr origin) "tanker" g
    else
      if memOpt destination oil_attrs.categories.US_origin_destination then
        get_oil_type_cargo tdd.WA_destination (optStr destination) "tanker" g
      else
        get_oil_type_cargo tdd.CAD_origin (optStr origin) "tanker" g
  else if memOpt origin oil_attrs.categories.US_origin_destination then
    get_oil_type_cargo tdd.WA_origin (optStr origin) "tanker" g
  else if memOpt destination oil_attrs.categories.US_origin_destination then
    get_oil_type_cargo tdd.WA_destination (optStr destination) "tanker" g
  else if memOpt destination oil_attrs.categories.CAD_origin_destination then
    get_oil_type_cargo tdd.CAD_origin (optStr destination) "tanker" g
  else if origin = some "Pacific" then
    get_oil_type_cargo_generic_US tdd.Pacific_origin_vessels "tanker" g
  else if origin = some "US" then
    get_oil_type_cargo_generic_US tdd.US_origin_vessels "tanker" g
  else
    -- catch-all: generic fuel attribution from combined US import and export
    get_oil_type_cargo_generic_US tdd.US_combined_vessels "tanker" g

/-- The `UnboundLocalError` raised at `return oil_type` when no branch of
`get_oil_type` assigns `oil_type`. -/
def unboundLocalMsg : String :=
  "UnboundLocalError: local variable oil_type referenced before assignment"

/-- `random_oil_spills.py`, `get_oil_type(oil_attrs, vessel_type,
vessel_origin, vessel_dest, fuel_spill, vessel_fuel_types,
marine_transport_data_dir, random_generator)`: validate the vessel fuel-type
probabilities, then either draw bunker / diesel for a fuel spill or dispatch
to the per-vessel-type cargo attribution tree.  `vessel_fuel_types` maps a
vessel type to its `(bunker, diesel)` probabilities.  The ok payload is the
Python return value (`None` is possible only via the barge tree); when no
branch assigns `oil_type`, the `return` raises `UnboundLocalError`. -/
def get_oil_type (oil_attrs : OilAttrs) (vessel_type : String)
    (vessel_origin vessel_dest : Option String) (fuel_spill : Bool)
    (vessel_fuel_types : String → ℚ × ℚ) (tdd : TransportDataDir) (g : Rng) :
    Except String (Option String × Rng) :=
  let bunker := (vessel_fuel_types vessel_type).1
  let diesel := (vessel_fuel_types vessel_type).2
  if |bunker + diesel - 1| > 1 / 10000 then
    Except.error
      ("ValueError: Probable data entry error - sum of raw probabilities is not close to 1: "
        ++ toString (bunker + diesel) ++ " for vessel_type=" ++ vessel_type)
  else if fuel_spill then
    match npChoiceWeighted ["bunker", "diesel"]
        [bunker / (bunker + diesel), diesel / (bunker + diesel)] g with
    | Except.error e => Except.error e
    | Except.ok (t, g1) => Except.ok (some t, g1)
  else if vessel_type = "atb" then
    match get_oil_type_atb oil_attrs vessel_origin vessel_dest tdd g with
    | Except.error e => Except.error e
    | Except.ok (t, g1) => Except.ok (some t, g1)
  else if vessel_type = "barge" then
    match get_oil_type_barge oil_attrs vessel_origin vessel_dest tdd g with
    | Except.error e => Except.error e
    | Except.ok ((oil_type, barge_fuel_spill), g1) =>
      if barge_fuel_spill then
        match npChoiceWeighted ["bunker", "diesel"]
            [bunker / (bunker + diesel), diesel / (bunker + diesel)] g1 with
        | Except.error e => Except.error e
        | Except.ok (t, g2) => Except.ok (some t, g2)
      else
        Except.ok (oil_type, g1)
  else if vessel_type = "tanker" then
    match get_oil_type_tanker oil_attrs vessel_origin vessel_dest tdd g with
    | Except.error e => Except.error e
    | Except.ok (t, g1) => Except.ok (some t, g1)
  else
    Except.error unboundLocalMsg

/-- A successful association-list lookup means the key/value pair is in the
list. -/
theorem lookup_mem {β : Type} : ∀ {l : List (String × β)} {k : String} {v : β},
    l.lookup k = some v → (k, v) ∈ l := by
  intro l
  induction l with
  | nil => intro k v h; simp [List.lookup] at h
  | cons kv es ih =>
    intro k v h
    rw [List.lookup] at h
    cases hbeq : (k == kv.1) with
    | true =>
      rw [hbeq] at h
      simp only [Option.some.injEq] at h
      have hk : k = kv.1 := eq_of_beq hbeq
      have hkv : (k, v) = kv := by
        rw [hk, ← h]
      rw [hkv]
      exact List.mem_cons_self _ _
    | false =>
      rw [hbeq] at h
      right
      exact ih h

/-- Every oil-type key of the fraction tables of a facility table is a
non-empty string. -/
abbrev nonEmptyKeysV (tbl : VesselOilTable) : Prop :=
  ∀ v ∈ tbl, ∀ kv ∈ v.2, kv.1 ≠ ""

/-- Facility-table version of `nonEmptyKeysV`. -/
abbrev nonEmptyKeysF (tbl : FacilityTable) : Prop :=
  ∀ f ∈ tbl, nonEmptyKeysV f.2

/-- A successful `get_oil_type_cargo` draw is a key of the looked-up fraction
table. -/
theorem get_oil_type_cargo_ok_mem {cargo_info : FacilityTable}
    {facility vessel_type : String} {g : Rng} {t : String} {g2 : Rng}
    (h : get_oil_type_cargo cargo_info facility vessel_type g =
      Except.ok (t, g2)) :
    ∃ fac ship, cargo_info.lookup facility = some fac ∧
      fac.lookup vessel_type = some ship ∧ t ∈ ship.map (fun kv => kv.1) := by
  cases hfac : cargo_info.lookup facility with
  | none =>
    simp only [get_oil_type_cargo, lookupStr, hfac] at h
    exact absurd h (by simp)
  | some fac =>
    cases hship : fac.lookup vessel_type with
    | none =>
      simp only [get_oil_type_cargo, lookupStr, hfac, hship] at h
      exact absurd h (by simp)
    | some ship =>
      simp only [get_oil_type_cargo, lookupStr, hfac, hship] at h
      split_ifs at h
      exact ⟨fac, ship, rfl, hship, npChoiceWeighted_mem h⟩

/-- Under `nonEmptyKeysF`, a successful `get_oil_type_cargo` draw is a
non-empty string. -/
theorem get_oil_type_cargo_ok_ne_empty {cargo_info : FacilityTable}
    {facility vessel_type : String} {g : Rng} {t : String} {g2 : Rng}
    (hne : nonEmptyKeysF cargo_info)
    (h : get_oil_type_cargo cargo_info facility vessel_type g =
      Except.ok (t, g2)) : t ≠ "" := by
  obtain ⟨fac, ship, hfac, hship, hmem⟩ := get_oil_type_cargo_ok_mem h
  rw [List.mem_map] at hmem
  obtain ⟨kv, hkv, rfl⟩ := hmem
  exact hne _ (lookup_mem hfac) _ (lookup_mem hship) _ hkv

/-- A successful `get_oil_type_cargo_generic_US` draw is a key of the
looked-up fraction table. -/
theorem get_oil_type_cargo_generic_US_ok_mem {cargo_info : VesselOilTable}
    {vessel_type : String} {g : Rng} {t : String} {g2 : Rng}
    (h : get_oil_type_cargo_generic_US cargo_info vessel_type g =
      Except.ok (t, g2)) :
    ∃ ship, cargo_info.lookup vessel_type = some ship ∧
      t ∈ ship.map (fun kv => kv.1) := by
  cases hship : cargo_info.lookup vessel_type with
  | none =>
    simp only [get_oil_type_cargo_generic_US, lookupStr, hship] at h
    exact absurd h (by simp)
  | some ship =>
    simp only [get_oil_type_cargo_generic_US, lookupStr, hship] at h
    split_ifs at h
    exact ⟨ship, rfl, npChoiceWeighted_mem h⟩

/-- Under `nonEmptyKeysV`, a successful `get_oil_type_cargo_generic_US` draw
is a non-empty string. -/
theorem get_oil_type_cargo_generic_US_ok_ne_empty
    {cargo_info : VesselOilTable} {vessel_type : String} {g : Rng}
    {t : String} {g2 : Rng} (hne : nonEmptyKeysV cargo_info)
    (h : get_oil_type_cargo_generic_US cargo_info vessel_type g =
      Except.ok (t, g2)) : t ≠ "" := by
  obtain ⟨ship, hship, hmem⟩ := get_oil_type_cargo_generic_US_ok_mem h
  rw [List.mem_map] at hmem
  obtain ⟨kv, hkv, rfl⟩ := hmem
  exact hne _ (lookup_mem hship) _ hkv

/-- Outcomes of `bargeCargoDraw`: always an oil-cargo spill carrying the
drawn string. -/
theorem bargeCargoDraw_inv {r : Except String (String × Rng)}
    {o : Option String} {b : Bool} {g2 : Rng}
    (h : bargeCargoDraw r = Except.ok ((o, b), g2)) :
    b = false ∧ ∃ t, o = some t ∧ r = Except.ok (t, g2) := by
  match r with
  | Except.error e => simp [bargeCargoDraw] at h
  | Except.ok (t, g1) =>
    simp only [bargeCargoDraw, Except.ok.injEq, Prod.mk.injEq] at h
    obtain ⟨⟨ho, hb⟩, hg⟩ := h
    exact ⟨hb.symm, t, ho.symm, by rw [hg]⟩

/-- Outcomes of `bargeCargoDrawCatch`: either the catch fired (fuel-only,
no oil type) or a non-empty drawn string with `fuel_spill = False`. -/
theorem bargeCargoDrawCatch_inv {r : Except String (String × Rng)}
    {o : Option String} {b : Bool} {g2 : Rng}
    (h : bargeCargoDrawCatch r = Except.ok ((o, b), g2)) :
    (b = true ∧ o = none) ∨
      (b = false ∧ ∃ t, o = some t ∧ t ≠ "" ∧ r = Except.ok (t, g2)) := by
  match r with
  | Except.error e => simp [bargeCargoDrawCatch] at h
  | Except.ok (t, g1) =>
    rw [bargeCargoDrawCatch] at h
    split_ifs at h with ht
    · simp only [Except.ok.injEq, Prod.mk.injEq] at h
      exact Or.inl ⟨h.1.2.symm, h.1.1.symm⟩
    · simp only [Except.ok.injEq, Prod.mk.injEq] at h
      obtain ⟨⟨ho, hb⟩, hg⟩ := h
      exact Or.inr ⟨hb.symm, t, ho.symm, ht, by rw [hg]⟩

/-- Outcomes of `bargeGate`: either fuel-spill-only with no oil type, or an
oil-cargo spill whose type comes from the generic attribution table. -/
theorem bargeGate_inv {p q : ℚ} {tbl : VesselOilTable} {g : Rng}
    {o : Option String} {b : Bool} {g2 : Rng}
    (h : bargeGate p q tbl g = Except.ok ((o, b), g2)) :
    (b = true ∧ o = none) ∨
      (b = false ∧ ∃ t g1, o = some t ∧
        get_oil_type_cargo_generic_US tbl "barge" g1 = Except.ok (t, g2)) := by
  rw [bargeGate] at h
  match hdraw : npChoiceWeighted [false, true] [p, q] g with
  | Except.error e =>
    rw [hdraw] at h
    dsimp only at h
    exact absurd h (by simp)
  | Except.ok (fs, g1) =>
    rw [hdraw] at h
    dsimp only at h
    by_cases hfs : fs = true
    · rw [if_pos hfs] at h
      simp only [Except.ok.injEq, Prod.mk.injEq] at h
      exact Or.inl ⟨h.1.2.symm, h.1.1.symm⟩
    · rw [if_neg hfs] at h
      match hdraw2 : get_oil_type_cargo_generic_US tbl "barge" g1 with
      | Except.error e =>
        rw [hdraw2] at h
        dsimp only at h
        exact absurd h (by simp)
      | Except.ok (t, g3) =>
        rw [hdraw2] at h
        dsimp only at h
        simp only [Except.ok.injEq, Prod.mk.injEq] at h
        obtain ⟨⟨ho, hb⟩, hg⟩ := h
        exact Or.inr ⟨hb.symm, t, g1, ho.symm, by rw [hdraw2, hg]⟩

/-- The C10 invariant shape, from an oil-cargo outcome. -/
theorem inv_of_some {o : Option String} {b : Bool} {t : String}
    (hb : b = false) (ho : o = some t) (ht : t ≠ "") :
    (b = true ↔ o = none) ∧ (b = false → ∃ s, o = some s ∧ s ≠ "") := by
  subst hb
  subst ho
  exact ⟨by simp, fun _ => ⟨t, rfl, ht⟩⟩

/-- The C10 invariant shape, from a fuel-spill-only outcome. -/
theorem inv_of_none {o : Option String} {b : Bool} (hb : b = true)
    (ho : o = none) :
    (b = true ↔ o = none) ∧ (b = false → ∃ s, o = some s ∧ s ≠ "") := by
  subst hb
  subst ho
  exact ⟨by simp, fun h => by simp at h⟩

/-- The C10 invariant, for a no-catch cargo draw branch over a table with
non-empty keys. -/
theorem inv_of_draw {tbl : FacilityTable} {fac vt : String} {g : Rng}
    {o : Option String} {b : Bool} {g2 : Rng} (hne : nonEmptyKeysF tbl)
    (h : bargeCargoDraw (get_oil_type_cargo tbl fac vt g) =
      Except.ok ((o, b), g2)) :
    (b = true ↔ o = none) ∧ (b = false → ∃ s, o = some s ∧ s ≠ "") := by
  obtain ⟨hb, t, ho, hr⟩ := bargeCargoDraw_inv h
  exact inv_of_some hb ho (get_oil_type_cargo_ok_ne_empty hne hr)

/-- The C10 invariant, for an error-catch cargo draw branch. -/
theorem inv_of_catch {r : Except String (String × Rng)} {o : Option String}
    {b : Bool} {g2 : Rng}
    (h : bargeCargoDrawCatch r = Except.ok ((o, b), g2)) :
    (b = true ↔ o = none) ∧ (b = false → ∃ s, o = some s ∧ s ≠ "") := by
  rcases bargeCargoDrawCatch_inv h with ⟨hb, ho⟩ | ⟨hb, t, ho, ht, hr⟩
  · exact inv_of_none hb ho
  · exact inv_of_some hb ho ht

/-- The C10 invariant, for a probability-gate branch over a generic table
with non-empty keys. -/
theorem inv_of_gate {p q : ℚ} {tbl : VesselOilTable} {g : Rng}
    {o : Option String} {b : Bool} {g2 : Rng} (hne : nonEmptyKeysV tbl)
    (h : bargeGate p q tbl g = Except.ok ((o, b), g2)) :
    (b = true ↔ o = none) ∧ (b = false → ∃ s, o = some s ∧ s ≠ "") := by
  rcases bargeGate_inv h with ⟨hb, ho⟩ | ⟨hb, t, g1, ho, hr⟩
  · exact inv_of_none hb ho
  · exact inv_of_some hb ho (get_oil_type_cargo_generic_US_ok_ne_empty hne hr)

/-- C10: every successful `(oil_type, fuel_spill)` result of
`get_oil_type_barge` satisfies `fuel_spill = (oil_type is None)`; moreover,
when the attribution tables carry non-empty oil-type keys (the assumption
that attribution draws return non-empty strings), every `fuel_spill = False`
result carries a non-empty oil-type string. -/
theorem get_oil_type_barge_invariant (oil_attrs : OilAttrs)
    (origin destination : Option String) (tdd : TransportDataDir)
    (hCAD : nonEmptyKeysF tdd.CAD_origin)
    (hUS : nonEmptyKeysV tdd.US_origin_vessels)
    (hPac : nonEmptyKeysV tdd.Pacific_origin_vessels)
    (g g2 : Rng) (o : Option String) (b : Bool)
    (h : get_oil_type_barge oil_attrs origin destination tdd g =
      Except.ok ((o, b), g2)) :
    (b = true ↔ o = none) ∧ (b = false → ∃ s, o = some s ∧ s ≠ "") := by
  unfold get_oil_type_barge at h
  split_ifs at h
  all_goals first
    | exact inv_of_draw hCAD h
    | exact inv_of_catch h
    | exact inv_of_gate hUS h
    | exact inv_of_gate hPac h
    | (simp only [Except.ok.injEq, Prod.mk.injEq] at h
       exact inv_of_some h.1.2.symm h.1.1.symm (by decide))

/-- Sample marine transport data directory for witnesses. -/
def sampleTdd : TransportDataDir :=
  { CAD_origin := [("Westridge Marine Terminal",
      [("barge", [("jet", 1)]), ("atb", [("jet", 1)])])],
    WA_destination := [],
    WA_origin := [],
    US_origin := [],
    US_origin_vessels := [("barge", [("akns", 1)])],
    US_combined_vessels := [("barge", [("akns", 1)])],
    Pacific_origin := [],
    Pacific_origin_vessels := [("barge", [("akns", 1)])] }

/-- C10 witness: a barge from Westridge Marine Terminal to another CAD
terminal is a cargo spill of jet fuel, satisfying the invariant. -/
theorem get_oil_type_barge_invariant_witness :
    ((false : Bool) = true ↔ (some "jet" : Option String) = none) ∧
    ((false : Bool) = false →
      ∃ s, (some "jet" : Option String) = some s ∧ s ≠ "") :=
  get_oil_type_barge_invariant sampleOilAttrs
    (some "Westridge Marine Terminal") (some "ESSO Nanaimo Departure Bay")
    sampleTdd (by decide) (by decide) (by decide) sampleRng sampleRng
    (some "jet") false rfl

/-- C9 counterexample: with `fuel_spill = False`, vessel type `cargo` and a
bunker / diesel probability pair summing to `1/2`, `get_oil_type` fails with
the fraction-sum `ValueError`, not with an unbound-variable error, so the
claim as stated (an unbound-variable failure for every such call) is false
at this input. -/
theorem get_oil_type_claim_counterexample :
    get_oil_type sampleOilAttrs "cargo" none none false (fun _ => (1/2, 0))
      sampleTdd sampleRng =
      Except.error
        ("ValueError: Probable data entry error - sum of raw probabilities is not close to 1: "
          ++ toString ((1 : ℚ)/2 + 0) ++ " for vessel_type=" ++ "cargo") ∧
    ("ValueError: Probable data entry error - sum of raw probabilities is not close to 1: "
        ++ toString ((1 : ℚ)/2 + 0) ++ " for vessel_type=" ++ "cargo") ≠
      unboundLocalMsg := by
  constructor
  · simp only [get_oil_type]
    rw [if_pos (by norm_num [lt_abs])]
  · decide

/-- C9 (amended): `get_oil_type` returns a value only when `fuel_spill` is
`True` or the vessel type is `atb` / `barge` / `tanker`; for
`fuel_spill = False` and any other vessel type, provided the bunker / diesel
probability validation passes, no branch assigns an oil type and the call
fails with the unbound-variable error at the `return` statement. -/
theorem get_oil_type_unassigned (oil_attrs : OilAttrs) (vessel_type : String)
    (vessel_origin vessel_dest : Option String)
    (vessel_fuel_types : String → ℚ × ℚ) (tdd : TransportDataDir) (g : Rng)
    (hvt : vessel_type ∉ (["atb", "barge", "tanker"] : List String)) :
    (|(vessel_fuel_types vessel_type).1 + (vessel_fuel_types vessel_type).2
        - 1| ≤ 1 / 10000 →
      get_oil_type oil_attrs vessel_type vessel_origin vessel_dest false
        vessel_fuel_types tdd g = Except.error unboundLocalMsg) ∧
    (∀ fuel_spill v g2,
      get_oil_type oil_attrs vessel_type vessel_origin vessel_dest fuel_spill
        vessel_fuel_types tdd g = Except.ok (v, g2) → fuel_spill = true) := by
  have h1 : vessel_type ≠ "atb" := by
    intro he
    exact hvt (by rw [he]; decide)
  have h2 : vessel_type ≠ "barge" := by
    intro he
    exact hvt (by rw [he]; decide)
  have h3 : vessel_type ≠ "tanker" := by
    intro he
    exact hvt (by rw [he]; decide)
  constructor
  · intro hval
    simp only [get_oil_type]
    rw [if_neg (not_lt.mpr hval), if_neg h1, if_neg h2, if_neg h3]
    simp
  · intro fuel_spill v g2 h
    cases fuel_spill with
    | true => rfl
    | false =>
      exfalso
      simp only [get_oil_type] at h
      rw [if_neg h1, if_neg h2, if_neg h3] at h
      split_ifs at h
      simp_all

/-- C9 witness: a cargo-vessel call with valid fuel-type probabilities and
`fuel_spill = False` fails with the unbound-variable error, instantiating the
amended claim. -/
theorem get_oil_type_unassigned_witness :
    get_oil_type sampleOilAttrs "cargo" none none false (fun _ => (1/2, 1/2))
      sampleTdd sampleRng = Except.error unboundLocalMsg :=
  (get_oil_type_unassigned sampleOilAttrs "cargo" none none
    (fun _ => (1/2, 1/2)) sampleTdd sampleRng (by decide)).1 (by norm_num)

/-- An AIS traffic raster band (`dataset.read(..., boundless=True,
fill_value=0)`), row-major. -/
abbrev Grid := List (List ℚ)

/-- The raster width (`dataset.width`, number of columns). -/
def gridWidth (gr : Grid) : Nat :=
  (gr.headD []).length

/-- `array.sum(where=mask)`: sum of the cells where the boolean mask is
true. -/
def maskedSum (gr : Grid) (mask : List (List Bool)) : ℚ :=
  (List.zipWith (fun row mrow =>
    (List.zipWith (fun x b => if b then x else 0) row mrow).sum) gr mask).sum

/-- `random_oil_spills.py`, `calc_vte_probability(geotiffs_dir,
geotiff_watermask)`: monthly spill probability weights from the total masked
VTE of the GeoTIFF of each month (the rasters read from `geotiffs_dir` are the
`geotiffs` parameter, indexed by month). -/
def calc_vte_probability (geotiffs : Nat → Grid)
    (geotiff_watermask : List (List Bool)) : List ℚ :=
  let total_vte_by_month := (List.range 12).map
    (fun m => maskedSum (geotiffs (m + 1)) geotiff_watermask)
  total_vte_by_month.map (fun v => v / total_vte_by_month.sum)

/-- The SalishSeaCast NEMO mesh mask dataset: flattened (row-major) T-grid
longitudes, latitudes and water mask at `t=0`, `z=0`, plus the grid row
width (`ssc_tmask.x.size`).  The three arrays share the grid shape. -/
structure Mesh where
  glamt : List ℚ
  gphit : List ℚ
  tmask : List ℚ
  width : Nat

/-- The nine candidate sub-grid offsets of `get_lat_lon_indices`
(`within_box`), as `(dx, dy)` in grid-cell fractions, keyed by the shift
name. -/
def within_box : String → ℚ × ℚ := fun shift =>
  match shift with
  | "center" => (0, 0)
  | "left" => (1/3, 0)
  | "uleft" => (1/3, 1/3)
  | "upper" => (0, 1/3)
  | "uright" => (-(1/3), 1/3)
  | "right" => (-(1/3), 0)
  | "lright" => (-(1/3), -(1/3))
  | "lower" => (0, -(1/3))
  | "lleft" => (1/3, -(1/3))
  | _ => (0, 0)

/-- `random_oil_spills.py`, `get_lat_lon_indices(geotiffs_dir, spill_month,
geotiff_watermask, ssc_mesh, random_generator)`: choose a GeoTIFF cell
weighted by masked VTE, build its bounding box via the affine transform
(`transformXY` models `rasterio.transform.xy`), choose a SalishSeaCast
T-grid water point inside the box, and jitter it to one of nine sub-grid
offsets. -/
def get_lat_lon_indices (geotiffs : Nat → Grid) (spill_month : Nat)
    (geotiff_watermask : List (List Bool)) (mesh : Mesh)
    (transformXY : ℚ → ℚ → ℚ × ℚ) (g : Rng) :
    Except String ((ℚ × ℚ × Nat × Nat × BBox × ℚ) × Rng) := do
  let raw := geotiffs spill_month
  -- Zero any points that are non-water or outside the SalishSeaCast domain
  let data : Grid := List.zipWith
    (fun row mrow => List.zipWith (fun x b => if b then x else 0) row mrow)
    raw geotiff_watermask
  let flat := data.flatten
  let probability_distribution := flat.map (fun x => x / flat.sum)
  let (mp, g1) ← npChoiceWeighted (List.range flat.length)
    probability_distribution g
  let width := gridWidth data
  let px := mp / width
  let py := mp % width
  let (llx, lly) := transformXY ((px : ℚ) + 1/2) ((py : ℚ) - 1/2)
  let (urx, ury) := transformXY ((px : ℚ) - 1/2) ((py : ℚ) + 1/2)
  let geotiff_bbox : BBox := ⟨llx, lly, urx, ury⟩
  -- Find the SalishSeaCast T-grid water points in the GeoTIFF cell
  let inner_points : List ℚ := (List.range mesh.tmask.length).map (fun i =>
    (if mesh.tmask.getD i 0 = 1 then 1 else 0) *
    (if mesh.glamt.getD i 0 > llx then 1 else 0) *
    (if mesh.glamt.getD i 0 < urx then 1 else 0) *
    (if mesh.gphit.getD i 0 > lly then 1 else 0) *
    (if mesh.gphit.getD i 0 < ury then 1 else 0))
  let (ssp, g2) ← npChoiceWeighted (List.range mesh.tmask.length)
    (inner_points.map (fun x => x / inner_points.sum)) g1
  let sslon ← npFlatGet mesh.glamt ssp
  let sslat ← npFlatGet mesh.gphit ssp
  let (shift, g3) ← npChoice ["center", "left", "uleft", "upper", "uright",
    "right", "lright", "lower", "lleft"] g2
  -- SalishSeaCast T-grid cell size in degrees of lat and lon
  let lon1 ← npFlatGet mesh.glamt (ssp + 1)
  let lat1 ← npFlatGet mesh.gphit (ssp + 1)
  let lonw ← npFlatGet mesh.glamt (ssp + mesh.width)
  let latw ← npFlatGet mesh.gphit (ssp + mesh.width)
  let londx := lon1 - sslon
  let latdx := lat1 - sslat
  let londy := lonw - sslon
  let latdy := latw - sslat
  let lat := sslat + latdx * (within_box shift).1 + latdy * (within_box shift).2
  let lon := sslon + londx * (within_box shift).1 + londy * (within_box shift).2
  let value ← npFlatGet flat (px * width + py)
  return ((lat, lon, px, py, geotiff_bbox, value), g3)

/-- `random_oil_spills.py`, `get_vessel_type(geotiffs_dir, vessel_types,
spill_month, geotiff_x_index, geotiff_y_index, random_generator)`: draw a
vessel type weighted by the per-type VTE at the spill cell (per-type monthly
rasters are the `vessel_geotiffs` parameter; out-of-range reads are 0 as with
`boundless=True, fill_value=0`). -/
def get_vessel_type (vessel_geotiffs : String → Nat → Grid)
    (vessel_types : List String) (spill_month : Nat)
    (geotiff_x_index geotiff_y_index : Nat) (g : Rng) :
    Except String (String × Rng) :=
  let vte_by_vessel_type := vessel_types.map (fun vt =>
    ((vessel_geotiffs vt spill_month).getD geotiff_x_index []).getD
      geotiff_y_index 0)
  let probability := vte_by_vessel_type.map
    (fun v => v / vte_by_vessel_type.sum)
  npChoiceWeighted vessel_types probability g

/-- `random_oil_spills.py`, `_cumulative_spill_fraction(fraction)`: the
two-exponential mixture cumulative spill fraction fit, evaluated pointwise
(`numpy.exp` is the `npExp` parameter). -/
def _cumulative_spill_fraction (npExp : ℚ → ℚ) (fraction : List ℚ) :
    List ℚ :=
  let typeonefrac : ℚ := 7/10
  let typetwofrac : ℚ := 1 - typeonefrac
  let typeonedec : ℚ := 28/100
  let typetwodec : ℚ := 2/100
  let multiplier := 1 / (1 - typeonefrac * npExp (-1 / typeonedec)
    - typetwofrac * npExp (-1 / typetwodec))
  fraction.map (fun f => (1 - typeonefrac * npExp (-f / typeonedec)
    - typetwofrac * npExp (-f / typetwodec)) * multiplier)

/-- `random_oil_spills.py`, `choose_fraction_spilled(random_generator)`:
50-bin discretization of the cumulative spill fraction fit; draw a bin
center weighted by the per-bin probabilities. -/
def choose_fraction_spilled (npExp : ℚ → ℚ) (g : Rng) :
    Except String (ℚ × Rng) :=
  let nbins := 50
  -- We need both sides of the bins, so the array is nbins+1 long
  let fraction := (List.range (nbins + 1)).map (fun i => (i : ℚ) / nbins)
  let cumulative := _cumulative_spill_fraction npExp fraction
  let probability := List.zipWith (fun a b => a - b)
    (cumulative.drop 1) cumulative.dropLast
  let central_value := List.zipWith (fun a b => (a + b) / 2)
    (fraction.drop 1) fraction.dropLast
  npChoiceWeighted central_value probability g

/-- Python string interpolation of a possibly-`None` value
(the Lagrangian template f-string of `random_oil_spills`). -/
def pyStr (o : Option String) : String :=
  match o with
  | some s => s
  | none => "None"

/-- One row of the output dataframe of `random_oil_spills` (one simulated
spill event). -/
structure SpillRow where
  spill_date_hour : Int
  run_days : Nat
  spill_lon : ℚ
  spill_lat : ℚ
  geotiff_x_index : Nat
  geotiff_y_index : Nat
  vessel_type : String
  vessel_mmsi : String
  spill_volume : ℚ
  fuel_cargo : String
  Lagrangian_template : String

/-- The run configuration and the read-only input datasets of
`random_oil_spills`, as loaded from the config yaml file and the files it
names: date range and calendar, watermask, monthly rasters (the `all` raster
and the per-vessel-type rasters), the affine transform, the NEMO mesh, the
vessel type list, the AIS track shapefiles (indexed by vessel type, month
and query bounding box, as read by geopandas), the oil attribution document,
the vessel fuel-type table, the marine transport data directory, and
`numpy.exp`. -/
structure Config where
  start_date : Int
  end_date : Int
  month_of : Int → Nat
  geotiff_watermask : List (List Bool)
  all_geotiffs : Nat → Grid
  vessel_geotiffs : String → Nat → Grid
  transformXY : ℚ → ℚ → ℚ × ℚ
  mesh : Mesh
  vessel_types : List String
  shapefiles_dir : String
  ais_tracks : String → Nat → BBox → List AISTrack
  oil_attrs : OilAttrs
  vessel_fuel_types : String → ℚ × ℚ
  tdd : TransportDataDir
  npExp : ℚ → ℚ

/-- The body of the per-spill loop of `random_oil_spills`: one spill event
row, threading the generator state through the staged draws in source
order. -/
def spill_iteration (cfg : Config) (vte_probability : List ℚ) (g : Rng) :
    Except String (SpillRow × Rng) := do
  let (spill_date_hour, g1) ← get_date cfg.month_of cfg.start_date
    cfg.end_date vte_probability g
  let run_days := 7
  let ((spill_lat, spill_lon, geotiff_x_index, geotiff_y_index, geotiff_bbox,
      _cell), g2) ← get_lat_lon_indices cfg.all_geotiffs
    (cfg.month_of spill_date_hour) cfg.geotiff_watermask cfg.mesh
    cfg.transformXY g1
  let (vessel_type, g3) ← get_vessel_type cfg.vessel_geotiffs
    cfg.vessel_types (cfg.month_of spill_date_hour) geotiff_x_index
    geotiff_y_index g2
  let ((vessel_len, vessel_origin, vessel_dest, vessel_mmsi), g4) ←
    get_length_origin_destination cfg.shapefiles_dir vessel_type
      (cfg.month_of spill_date_hour) geotiff_bbox
      (cfg.ais_tracks vessel_type (cfg.month_of spill_date_hour) geotiff_bbox)
      g3
  let (vessel_len2, g5) ← adjust_tug_tank_barge_length vessel_type vessel_len
    g4
  let ((fuel_capacity, cargo_capacity), g6) ← get_oil_capacity cfg.npExp
    cfg.oil_attrs vessel_len2 vessel_type g5
  let (fuel_spill, g7) ← fuel_or_cargo_spill cfg.oil_attrs vessel_type g6
  let max_spill_volume := if fuel_spill then fuel_capacity
    else cargo_capacity
  let (fraction_spilled, g8) ← choose_fraction_spilled cfg.npExp g7
  let spill_volume := max_spill_volume * fraction_spilled
  let fuel_cargo := if fuel_spill then "fuel" else "cargo"
  let (oil_type, g9) ← get_oil_type cfg.oil_attrs vessel_type vessel_origin
    vessel_dest fuel_spill cfg.vessel_fuel_types cfg.tdd g8
  let row : SpillRow :=
    { spill_date_hour := spill_date_hour, run_days := run_days,
      spill_lon := spill_lon, spill_lat := spill_lat,
      geotiff_x_index := geotiff_x_index,
      geotiff_y_index := geotiff_y_index, vessel_type := vessel_type,
      vessel_mmsi := vessel_mmsi, spill_volume := spill_volume,
      fuel_cargo := fuel_cargo,
      Lagrangian_template := "Lagrangian_" ++ pyStr oil_type ++ ".dat" }
  return (row, g9)

/-- The `for spill in range(n_spills)` loop of `random_oil_spills`, in row
order. -/
def spills_loop (cfg : Config) (vte_probability : List ℚ) :
    Nat → Rng → Except String (List SpillRow × Rng)
  | 0, g => Except.ok ([], g)
  | n + 1, g => do
    let (row, g1) ← spill_iteration cfg vte_probability g
    let (rest, g2) ← spills_loop cfg vte_probability n g1
    Except.ok (row :: rest, g2)

/-- `numpy.random.default_rng(random_seed)`: the PCG-64 generator is a
deterministic function of its seed; the stream values are abstracted (any
deterministic stream determined by the seed models the reproducibility
contract). -/
def numpy_default_rng (random_seed : Nat) : Rng :=
  { stream := fun i => random_seed + i, pos := 0 }

/-- `random_oil_spills.py`, `random_oil_spills(n_spills, config_file,
random_seed)`: compute the VTE probability weights once, seed the generator
once, then produce `n_spills` spill-parameter rows in draw order.  The
config file and every input dataset it names are the `cfg` argument. -/
def random_oil_spills (n_spills : Nat) (cfg : Config) (random_seed : Nat) :
    Except String (List SpillRow) := do
  let vte_probability := calc_vte_probability cfg.all_geotiffs
    cfg.geotiff_watermask
  let random_generator := numpy_default_rng random_seed
  let (rows, _) ← spills_loop cfg vte_probability n_spills random_generator
  return rows

/-- C1: `random_oil_spills` is a pure function of the spill count, the
configuration-plus-datasets bundle and the seed: two invocations with equal
seeds and equal configurations produce identical row lists (same rows, same
values, same order).  The embedding threads the single seeded generator
through every stage with no other state, so determinism holds by
construction. -/
theorem random_oil_spills_deterministic (n_spills : Nat) (cfg1 cfg2 : Config)
    (s1 s2 : Nat) (hseed : s1 = s2) (hcfg : cfg1 = cfg2) :
    random_oil_spills n_spills cfg1 s1 = random_oil_spills n_spills cfg2 s2 := by
  subst hseed
  subst hcfg
  rfl

/-- A minimal sample configuration for the determinism witness. -/
def sampleConfig : Config :=
  { start_date := 0, end_date := 3, month_of := sampleMonthOf,
    geotiff_watermask := [[true]], all_geotiffs := fun _ => [[1]],
    vessel_geotiffs := fun _ _ => [[1]],
    transformXY := fun a b => (a, b),
    mesh := { glamt := [0], gphit := [0], tmask := [1], width := 1 },
    vessel_types := ["ferry"], shapefiles_dir := "shapefiles",
    ais_tracks := fun _ _ _ => [], oil_attrs := sampleOilAttrs,
    vessel_fuel_types := fun _ => (1/2, 1/2), tdd := sampleTdd,
    npExp := fun _ => 1 }

/-- C1 witness: the determinism theorem applied at a concrete spill count,
configuration and seed. -/
theorem random_oil_spills_deterministic_witness :
    random_oil_spills 2 sampleConfig 43 = random_oil_spills 2 sampleConfig 43 :=
  random_oil_spills_deterministic 2 sampleConfig sampleConfig 43 43 rfl rfl
